import Mathlib

/-!
Shallow embedding of `src/vcdNSXMigratorCleanup.py`
(`VMwareCloudDirectorNSXMigratorCleanup.run`), the cleanup orchestrator of
the NSX-V to NSX-T migration tool.

The orchestrator is a straight-line sequence of remote calls against two
collaborators (`VCloudDirectorOperations`, `NSXTOperations`) whose
implementations live outside this repository slice.  We embed each
collaborator as a record of call outcomes (`Except CleanupError α` per
operation), and `run` as a pure function producing the ordered trace of
remote calls it issued together with its final outcome.  The body of the
Python `try:` block is `runBody`; `run` adds the `except Exception: raise`
handler of lines 151-152.
-/

/-- Errors surfaced by remote operations or by local evaluation.  The
constructors mirror the error taxonomy: credential failures, missing
entities, failed validation gates, failed mutations, and Python
`IndexError` raised by unguarded list indexing in the orchestrator
itself. -/
inductive CleanupError where
  | authError (msg : String)
  | notFoundError (msg : String)
  | validationError (msg : String)
  | operationError (msg : String)
  | indexError (msg : String)
  deriving DecidableEq, Repr

/-- `edgeGatewayDetails[...]['ipRanges']` : the IP-range list of a subnet
(each range abstracted as an opaque string). -/
structure IpRanges where
  values : List String
  deriving DecidableEq, Repr

/-- A subnet entry of an uplink: carries its IP ranges. -/
structure Subnet where
  ipRanges : IpRanges
  deriving DecidableEq, Repr

/-- The `subnets` field of an uplink: a `values` list of subnets. -/
structure Subnets where
  values : List Subnet
  deriving DecidableEq, Repr

/-- An edge-gateway uplink: references an external network by
`uplinkName` and carries `subnets`. -/
structure Uplink where
  uplinkName : String
  subnets : Subnets
  deriving DecidableEq, Repr

/-- One edge gateway: its list of uplinks. -/
structure EdgeGateway where
  edgeGatewayUplinks : List Uplink
  deriving DecidableEq, Repr

/-- The payload returned by `getOrgVDCEdgeGateway`: a `values` list of
edge gateways. -/
structure EdgeGatewayDetails where
  values : List EdgeGateway
  deriving DecidableEq, Repr

/-- The configuration slice of `vcdDict` that `run` reads (lines 43-46,
70, 85). -/
structure VcdConfig where
  orgName : String
  sourceOrgVDCName : String
  sourceExternalNetworkName : String
  sourcePVDCName : String
  targetPVDCName : String
  deriving Repr

/-- One remote call issued by the orchestrator, with the arguments the
orchestrator passed.  The trace of a run is a `List Call`. -/
inductive Call where
  | vcdLogin
  | getComputeManagers
  | getOrgUrl (orgName : String)
  | getProviderVDCId (pvdcName : String)
  | getOrgVDCDetails (orgUrl : String) (orgVDCName : String)
  | validateOrgVDCNSXbacking (orgVDCId : String) (pvdcId : String) (isNSXTbacked : Bool)
  | getOrgVDCEdgeGateway (orgVDCId : String)
  | validateTargetOrgVDCState (orgVDCId : String)
  | getOrgVDCNetworks (orgVDCId : String)
  | validateVappVMsMediaState (orgVDCId : String)
  | migrateCatalogItems (sourceOrgVDCId targetOrgVDCId orgUrl : String)
  | clearBridging (orgVDCNetworkList : List String)
  | deleteOrgVDCNetworks (orgVDCId : String)
  | deleteNsxVBackedOrgVDCEdgeGateways (orgVDCId : String)
  | deleteOrgVDC (orgVDCId : String)
  | renameTargetOrgVDCNetworks (orgVDCId : String)
  | renameOrgVDC (newName : String) (orgVDCId : String)
  | updateSourceExternalNetwork (networkName : String) (ipRanges : List String)
  | deleteSession
  deriving DecidableEq, Repr

/-- The constructor of a `Call` with its arguments erased; used to state
ordering and counting properties of traces decidably. -/
inductive CallTag where
  | vcdLogin
  | getComputeManagers
  | getOrgUrl
  | getProviderVDCId
  | getOrgVDCDetails
  | validateOrgVDCNSXbacking
  | getOrgVDCEdgeGateway
  | validateTargetOrgVDCState
  | getOrgVDCNetworks
  | validateVappVMsMediaState
  | migrateCatalogItems
  | clearBridging
  | deleteOrgVDCNetworks
  | deleteNsxVBackedOrgVDCEdgeGateways
  | deleteOrgVDC
  | renameTargetOrgVDCNetworks
  | renameOrgVDC
  | updateSourceExternalNetwork
  | deleteSession
  deriving DecidableEq, Repr

/-- Erase a call's arguments to its tag. -/
def Call.tag : Call → CallTag
  | .vcdLogin => .vcdLogin
  | .getComputeManagers => .getComputeManagers
  | .getOrgUrl _ => .getOrgUrl
  | .getProviderVDCId _ => .getProviderVDCId
  | .getOrgVDCDetails _ _ => .getOrgVDCDetails
  | .validateOrgVDCNSXbacking _ _ _ => .validateOrgVDCNSXbacking
  | .getOrgVDCEdgeGateway _ => .getOrgVDCEdgeGateway
  | .validateTargetOrgVDCState _ => .validateTargetOrgVDCState
  | .getOrgVDCNetworks _ => .getOrgVDCNetworks
  | .validateVappVMsMediaState _ => .validateVappVMsMediaState
  | .migrateCatalogItems _ _ _ => .migrateCatalogItems
  | .clearBridging _ => .clearBridging
  | .deleteOrgVDCNetworks _ => .deleteOrgVDCNetworks
  | .deleteNsxVBackedOrgVDCEdgeGateways _ => .deleteNsxVBackedOrgVDCEdgeGateways
  | .deleteOrgVDC _ => .deleteOrgVDC
  | .renameTargetOrgVDCNetworks _ => .renameTargetOrgVDCNetworks
  | .renameOrgVDC _ _ => .renameOrgVDC
  | .updateSourceExternalNetwork _ _ => .updateSourceExternalNetwork
  | .deleteSession => .deleteSession

/-- A call whose contract mutates remote state: catalog relocation,
bridging removal, the three deletions, the two renames, and the IP-pool
update.  Discovery, validation and session calls are not mutations. -/
def Call.isMutation : Call → Bool
  | .migrateCatalogItems _ _ _ => true
  | .clearBridging _ => true
  | .deleteOrgVDCNetworks _ => true
  | .deleteNsxVBackedOrgVDCEdgeGateways _ => true
  | .deleteOrgVDC _ => true
  | .renameTargetOrgVDCNetworks _ => true
  | .renameOrgVDC _ _ => true
  | .updateSourceExternalNetwork _ _ => true
  | _ => false

/-- Outcomes of the virtualization-platform collaborator's operations
(`vcdObj`, external to this repository slice): each operation either
returns a value or raises a `CleanupError`. -/
structure VCloudDirectorOperations where
  vcdLogin : Except CleanupError Unit
  getOrgUrl : String → Except CleanupError String
  getProviderVDCId : String → Except CleanupError (String × Bool)
  getOrgVDCDetails : String → String → Except CleanupError String
  validateOrgVDCNSXbacking : String → String → Bool → Except CleanupError Unit
  getOrgVDCEdgeGateway : String → Except CleanupError EdgeGatewayDetails
  validateTargetOrgVDCState : String → Except CleanupError Unit
  getOrgVDCNetworks : String → Except CleanupError (List String)
  validateVappVMsMediaState : String → Except CleanupError Unit
  migrateCatalogItems : String → String → String → Except CleanupError Unit
  deleteOrgVDCNetworks : String → Except CleanupError Unit
  deleteNsxVBackedOrgVDCEdgeGateways : String → Except CleanupError Unit
  deleteOrgVDC : String → Except CleanupError Unit
  renameTargetOrgVDCNetworks : String → Except CleanupError Unit
  renameOrgVDC : String → String → Except CleanupError Unit
  updateSourceExternalNetwork : String → List String → Except CleanupError Unit
  deleteSession : Except CleanupError Unit

/-- Outcomes of the NSX-T collaborator's operations (`nsxtObj`, external
to this repository slice). -/
structure NSXTOperations where
  getComputeManagers : Except CleanupError Unit
  clearBridging : List String → Except CleanupError Unit

/-- Issue one remote call: record it in the trace; on error stop with
that error, on success continue with the returned value. -/
def callStep {α : Type} (c : Call) (r : Except CleanupError α) (tr : List Call)
    (k : α → List Call → List Call × Except CleanupError Unit) :
    List Call × Except CleanupError Unit :=
  match r with
  | .error e => (tr ++ [c], .error e)
  | .ok a => k a (tr ++ [c])

/-- Lines 136-144: search the uplinks of `edgeGatewayDetails['values'][0]`
for the configured external-network name; if the filtered list is
non-empty, read `subnets['values'][0]['ipRanges']['values']` of its first
element and, when that list is truthy, return it for the update call.
Unguarded indexing (`['values'][0]` on the gateway list and on the subnet
list) raises `IndexError`. -/
def computeIpPoolUpdate (sourceExternalNetworkName : String)
    (edgeGatewayDetails : EdgeGatewayDetails) :
    Except CleanupError (Option (List String)) :=
  match edgeGatewayDetails.values with
  | [] => .error (.indexError "list index out of range")
  | gw :: _ =>
    match gw.edgeGatewayUplinks.filter
        (fun uplink => uplink.uplinkName == sourceExternalNetworkName) with
    | [] => .ok none
    | u :: _ =>
      match u.subnets.values with
      | [] => .error (.indexError "list index out of range")
      | s :: _ =>
        if s.ipRanges.values.isEmpty then .ok none
        else .ok (some s.ipRanges.values)

/-- The body of the `try:` block of `run` (lines 41-149), as a function
from the configuration and the two collaborators' outcomes to the trace
of issued remote calls and the outcome. -/
def runBody (cfg : VcdConfig) (vcdObj : VCloudDirectorOperations)
    (nsxtObj : NSXTOperations) : List Call × Except CleanupError Unit :=
  callStep .vcdLogin vcdObj.vcdLogin [] fun _ tr =>
  callStep .getComputeManagers nsxtObj.getComputeManagers tr fun _ tr =>
  callStep (.getOrgUrl cfg.orgName) (vcdObj.getOrgUrl cfg.orgName) tr fun orgUrl tr =>
  callStep (.getProviderVDCId cfg.sourcePVDCName)
      (vcdObj.getProviderVDCId cfg.sourcePVDCName) tr fun srcPvdc tr =>
  callStep (.getOrgVDCDetails orgUrl cfg.sourceOrgVDCName)
      (vcdObj.getOrgVDCDetails orgUrl cfg.sourceOrgVDCName) tr fun sourceOrgVDCId tr =>
  callStep (.validateOrgVDCNSXbacking sourceOrgVDCId srcPvdc.1 srcPvdc.2)
      (vcdObj.validateOrgVDCNSXbacking sourceOrgVDCId srcPvdc.1 srcPvdc.2) tr fun _ tr =>
  callStep (.getOrgVDCEdgeGateway sourceOrgVDCId)
      (vcdObj.getOrgVDCEdgeGateway sourceOrgVDCId) tr fun edgeGatewayDetails tr =>
  callStep (.getProviderVDCId cfg.targetPVDCName)
      (vcdObj.getProviderVDCId cfg.targetPVDCName) tr fun tgtPvdc tr =>
  callStep (.getOrgVDCDetails orgUrl (cfg.sourceOrgVDCName ++ "-t"))
      (vcdObj.getOrgVDCDetails orgUrl (cfg.sourceOrgVDCName ++ "-t")) tr fun targetOrgVDCId tr =>
  callStep (.validateOrgVDCNSXbacking targetOrgVDCId tgtPvdc.1 tgtPvdc.2)
      (vcdObj.validateOrgVDCNSXbacking targetOrgVDCId tgtPvdc.1 tgtPvdc.2) tr fun _ tr =>
  callStep (.validateTargetOrgVDCState targetOrgVDCId)
      (vcdObj.validateTargetOrgVDCState targetOrgVDCId) tr fun _ tr =>
  callStep (.getOrgVDCNetworks targetOrgVDCId)
      (vcdObj.getOrgVDCNetworks targetOrgVDCId) tr fun orgVDCNetworkList tr =>
  callStep (.validateVappVMsMediaState targetOrgVDCId)
      (vcdObj.validateVappVMsMediaState targetOrgVDCId) tr fun _ tr =>
  callStep (.migrateCatalogItems sourceOrgVDCId targetOrgVDCId orgUrl)
      (vcdObj.migrateCatalogItems sourceOrgVDCId targetOrgVDCId orgUrl) tr fun _ tr =>
  callStep (.clearBridging orgVDCNetworkList)
      (nsxtObj.clearBridging orgVDCNetworkList) tr fun _ tr =>
  callStep (.deleteOrgVDCNetworks sourceOrgVDCId)
      (vcdObj.deleteOrgVDCNetworks sourceOrgVDCId) tr fun _ tr =>
  callStep (.deleteNsxVBackedOrgVDCEdgeGateways sourceOrgVDCId)
      (vcdObj.deleteNsxVBackedOrgVDCEdgeGateways sourceOrgVDCId) tr fun _ tr =>
  callStep (.deleteOrgVDC sourceOrgVDCId)
      (vcdObj.deleteOrgVDC sourceOrgVDCId) tr fun _ tr =>
  callStep (.renameTargetOrgVDCNetworks targetOrgVDCId)
      (vcdObj.renameTargetOrgVDCNetworks targetOrgVDCId) tr fun _ tr =>
  callStep (.renameOrgVDC cfg.sourceOrgVDCName targetOrgVDCId)
      (vcdObj.renameOrgVDC cfg.sourceOrgVDCName targetOrgVDCId) tr fun _ tr =>
  match computeIpPoolUpdate cfg.sourceExternalNetworkName edgeGatewayDetails with
  | .error e => (tr, .error e)
  | .ok none =>
      callStep .deleteSession vcdObj.deleteSession tr fun _ tr => (tr, .ok ())
  | .ok (some ipRanges) =>
      callStep (.updateSourceExternalNetwork cfg.sourceExternalNetworkName ipRanges)
          (vcdObj.updateSourceExternalNetwork cfg.sourceExternalNetworkName ipRanges) tr fun _ tr =>
      callStep .deleteSession vcdObj.deleteSession tr fun _ tr => (tr, .ok ())

/-- `run` (lines 37-152): the `try:` body wrapped in
`except Exception: raise`, which re-raises the caught exception
unchanged. -/
def run (cfg : VcdConfig) (vcdObj : VCloudDirectorOperations)
    (nsxtObj : NSXTOperations) : List Call × Except CleanupError Unit :=
  match runBody cfg vcdObj nsxtObj with
  | (tr, .error e) => (tr, .error e)
  | (tr, .ok u) => (tr, .ok u)

/-- A concrete configuration used by the concrete witness runs. -/
def cfg0 : VcdConfig := ⟨"org1", "svdc", "extnet", "spvdc", "tpvdc"⟩

/-- A concrete edge gateway with one uplink named `extnet` carrying one
subnet with one IP range. -/
def gw0 : EdgeGateway :=
  ⟨[⟨"extnet", ⟨[⟨⟨["10.10.10.2-10.10.10.20"]⟩⟩]⟩⟩]⟩

/-- A concrete edge-gateway payload holding just `gw0`. -/
def egwDefault : EdgeGatewayDetails := ⟨[gw0]⟩

/-- A virtualization-platform collaborator whose every operation
succeeds. -/
def vcdOk : VCloudDirectorOperations where
  vcdLogin := .ok ()
  getOrgUrl := fun _ => .ok "orgUrl1"
  getProviderVDCId := fun n => .ok ("pvdc-" ++ n, n == "tpvdc")
  getOrgVDCDetails := fun _ n => .ok ("id-" ++ n)
  validateOrgVDCNSXbacking := fun _ _ _ => .ok ()
  getOrgVDCEdgeGateway := fun _ => .ok egwDefault
  validateTargetOrgVDCState := fun _ => .ok ()
  getOrgVDCNetworks := fun _ => .ok ["net1", "net2"]
  validateVappVMsMediaState := fun _ => .ok ()
  migrateCatalogItems := fun _ _ _ => .ok ()
  deleteOrgVDCNetworks := fun _ => .ok ()
  deleteNsxVBackedOrgVDCEdgeGateways := fun _ => .ok ()
  deleteOrgVDC := fun _ => .ok ()
  renameTargetOrgVDCNetworks := fun _ => .ok ()
  renameOrgVDC := fun _ _ => .ok ()
  updateSourceExternalNetwork := fun _ _ => .ok ()
  deleteSession := .ok ()

/-- An NSX-T collaborator whose every operation succeeds. -/
def nsxtOk : NSXTOperations where
  getComputeManagers := .ok ()
  clearBridging := fun _ => .ok ()

/-- A collaborator that fails every backing validation with
`ValidationError`, as on a backing mismatch. -/
def vcdC1 : VCloudDirectorOperations :=
  { vcdOk with validateOrgVDCNSXbacking := fun _ _ _ => .error (.validationError "mismatch") }

/-- A call that deletes a remote object: the source networks, the source
edge gateways, or the source container. -/
def Call.isDeletion : Call → Bool
  | .deleteOrgVDCNetworks _ => true
  | .deleteNsxVBackedOrgVDCEdgeGateways _ => true
  | .deleteOrgVDC _ => true
  | _ => false

/-- A collaborator whose target-container state validation fails with
`ValidationError`, as on a disabled target. -/
def vcdC3 : VCloudDirectorOperations :=
  { vcdOk with validateTargetOrgVDCState := fun _ => .error (.validationError "disabled") }

/-- The trace of a run with the call arguments erased to tags. -/
def tagsOf (cfg : VcdConfig) (vcdObj : VCloudDirectorOperations)
    (nsxtObj : NSXTOperations) : List CallTag :=
  (run cfg vcdObj nsxtObj).1.map Call.tag

/-- A collaborator whose edge-gateway payload has an empty gateway
list. -/
def vcdC9 : VCloudDirectorOperations :=
  { vcdOk with getOrgVDCEdgeGateway := fun _ => .ok ⟨[]⟩ }

/-- A collaborator that succeeds everywhere except the final
session-termination call. -/
def vcdC6 : VCloudDirectorOperations :=
  { vcdOk with deleteSession := .error (.operationError "logout failed") }

/-- The straight-line order of remote-call tags in `run`, for runs that
skip the IP-pool update. -/
def fullCallOrder : List CallTag :=
  [.vcdLogin, .getComputeManagers, .getOrgUrl, .getProviderVDCId,
   .getOrgVDCDetails, .validateOrgVDCNSXbacking, .getOrgVDCEdgeGateway,
   .getProviderVDCId, .getOrgVDCDetails, .validateOrgVDCNSXbacking,
   .validateTargetOrgVDCState, .getOrgVDCNetworks, .validateVappVMsMediaState,
   .migrateCatalogItems, .clearBridging, .deleteOrgVDCNetworks,
   .deleteNsxVBackedOrgVDCEdgeGateways, .deleteOrgVDC,
   .renameTargetOrgVDCNetworks, .renameOrgVDC, .deleteSession]

/-- The straight-line order of remote-call tags in `run`, for runs that
perform the IP-pool update. -/
def fullCallOrderWithUpdate : List CallTag :=
  [.vcdLogin, .getComputeManagers, .getOrgUrl, .getProviderVDCId,
   .getOrgVDCDetails, .validateOrgVDCNSXbacking, .getOrgVDCEdgeGateway,
   .getProviderVDCId, .getOrgVDCDetails, .validateOrgVDCNSXbacking,
   .validateTargetOrgVDCState, .getOrgVDCNetworks, .validateVappVMsMediaState,
   .migrateCatalogItems, .clearBridging, .deleteOrgVDCNetworks,
   .deleteNsxVBackedOrgVDCEdgeGateways, .deleteOrgVDC,
   .renameTargetOrgVDCNetworks, .renameOrgVDC, .updateSourceExternalNetwork,
   .deleteSession]

/-- A collaborator whose media-attachment validation fails with
`ValidationError`, as when a VM has media attached. -/
def vcdC4 : VCloudDirectorOperations :=
  { vcdOk with validateVappVMsMediaState := fun _ => .error (.validationError "media attached") }

/-- Unfolding a recorded call whose outcome is success. -/
theorem callStep_ok {α : Type} (c : Call) (a : α) (tr : List Call)
    (k : α → List Call → List Call × Except CleanupError Unit) :
    callStep c (.ok a) tr k = k a (tr ++ [c]) := rfl

/-- Unfolding a recorded call whose outcome is an error. -/
theorem callStep_err {α : Type} (c : Call) (e : CleanupError) (tr : List Call)
    (k : α → List Call → List Call × Except CleanupError Unit) :
    callStep c (.error e) tr k = (tr ++ [c], .error e) := rfl

/-- Inversion: if the computation after a recorded call ends in success,
the call itself succeeded and the continuation ends in success. -/
theorem callStep_ok_inv {α : Type} {c : Call} {r : Except CleanupError α}
    {tr : List Call} {k : α → List Call → List Call × Except CleanupError Unit}
    (h : (callStep c r tr k).2 = .ok ()) :
    ∃ a, r = .ok a ∧ (k a (tr ++ [c])).2 = .ok () := by
  cases r with
  | error e => simp [callStep] at h
  | ok a => exact ⟨a, rfl, h⟩

/-- The `except Exception: raise` handler is the identity on outcomes and
traces. -/
theorem run_eq (cfg : VcdConfig) (vcdObj : VCloudDirectorOperations)
    (nsxtObj : NSXTOperations) :
    run cfg vcdObj nsxtObj = runBody cfg vcdObj nsxtObj := by
  unfold run
  rcases runBody cfg vcdObj nsxtObj with ⟨tr, r⟩
  cases r <;> rfl

/-- C1: if the source container is reached and its backing-technology
validation (line 79) reports a `ValidationError` — the collaborator's
contract for a source-pool/source-container backing mismatch — then
`run` fails with that `ValidationError` and the trace of issued remote
calls contains no mutation call (no catalog relocation, bridging
removal, deletion, rename, or IP-pool update). -/
theorem C1_mismatch_blocks_mutations (cfg : VcdConfig)
    (vcdObj : VCloudDirectorOperations) (nsxtObj : NSXTOperations)
    (orgUrl srcPvdcId : String) (srcNSXT : Bool)
    (sourceOrgVDCId msg : String)
    (h1 : vcdObj.vcdLogin = .ok ())
    (h2 : nsxtObj.getComputeManagers = .ok ())
    (h3 : vcdObj.getOrgUrl cfg.orgName = .ok orgUrl)
    (h4 : vcdObj.getProviderVDCId cfg.sourcePVDCName = .ok (srcPvdcId, srcNSXT))
    (h5 : vcdObj.getOrgVDCDetails orgUrl cfg.sourceOrgVDCName = .ok sourceOrgVDCId)
    (h6 : vcdObj.validateOrgVDCNSXbacking sourceOrgVDCId srcPvdcId srcNSXT
        = .error (.validationError msg)) :
    (run cfg vcdObj nsxtObj).2 = .error (.validationError msg) ∧
    ((run cfg vcdObj nsxtObj).1.all fun c => !c.isMutation) = true := by
  rw [run_eq]
  simp only [runBody, h1, h2, h3, h4, h5, h6, callStep_ok, callStep_err]
  exact ⟨trivial, rfl⟩

/-- Witness for C1 at a concrete configuration. -/
theorem C1_witness :
    (run cfg0 vcdC1 nsxtOk).2 = .error (.validationError "mismatch") ∧
    ((run cfg0 vcdC1 nsxtOk).1.all fun c => !c.isMutation) = true :=
  C1_mismatch_blocks_mutations cfg0 vcdC1 nsxtOk "orgUrl1" "pvdc-spvdc" false
    "id-svdc" "mismatch" rfl rfl rfl rfl rfl rfl

/-- C3: if the target container's enabled-state validation (line 98)
reports a `ValidationError` — the collaborator's contract for a disabled
target container — then `run` fails with that `ValidationError` and no
deletion call (networks, edge gateways, or the source container) appears
in the trace. -/
theorem C3_disabled_target_blocks_deletions (cfg : VcdConfig)
    (vcdObj : VCloudDirectorOperations) (nsxtObj : NSXTOperations)
    (orgUrl srcPvdcId : String) (srcNSXT : Bool) (sourceOrgVDCId : String)
    (egw : EdgeGatewayDetails) (tgtPvdcId : String) (tgtNSXT : Bool)
    (targetOrgVDCId msg : String)
    (h1 : vcdObj.vcdLogin = .ok ())
    (h2 : nsxtObj.getComputeManagers = .ok ())
    (h3 : vcdObj.getOrgUrl cfg.orgName = .ok orgUrl)
    (h4 : vcdObj.getProviderVDCId cfg.sourcePVDCName = .ok (srcPvdcId, srcNSXT))
    (h5 : vcdObj.getOrgVDCDetails orgUrl cfg.sourceOrgVDCName = .ok sourceOrgVDCId)
    (h6 : vcdObj.validateOrgVDCNSXbacking sourceOrgVDCId srcPvdcId srcNSXT = .ok ())
    (h7 : vcdObj.getOrgVDCEdgeGateway sourceOrgVDCId = .ok egw)
    (h8 : vcdObj.getProviderVDCId cfg.targetPVDCName = .ok (tgtPvdcId, tgtNSXT))
    (h9 : vcdObj.getOrgVDCDetails orgUrl (cfg.sourceOrgVDCName ++ "-t") = .ok targetOrgVDCId)
    (h10 : vcdObj.validateOrgVDCNSXbacking targetOrgVDCId tgtPvdcId tgtNSXT = .ok ())
    (h11 : vcdObj.validateTargetOrgVDCState targetOrgVDCId
        = .error (.validationError msg)) :
    (run cfg vcdObj nsxtObj).2 = .error (.validationError msg) ∧
    ((run cfg vcdObj nsxtObj).1.all fun c => !c.isDeletion) = true := by
  rw [run_eq]
  simp only [runBody, h1, h2, h3, h4, h5, h6, h7, h8, h9, h10, h11,
    callStep_ok, callStep_err]
  exact ⟨trivial, rfl⟩

/-- Witness for C3 at a concrete configuration. -/
theorem C3_witness :
    (run cfg0 vcdC3 nsxtOk).2 = .error (.validationError "disabled") ∧
    ((run cfg0 vcdC3 nsxtOk).1.all fun c => !c.isDeletion) = true :=
  C3_disabled_target_blocks_deletions cfg0 vcdC3 nsxtOk "orgUrl1" "pvdc-spvdc"
    false "id-svdc" egwDefault "pvdc-tpvdc" true "id-svdc-t" "disabled"
    rfl rfl rfl rfl rfl rfl rfl rfl rfl rfl rfl

/-- C4: if the media-attachment validation (line 106) reports a
`ValidationError` — the collaborator's contract when some target-container
VM has media attached — then `run` fails with that `ValidationError` and
neither the catalog-relocation call nor the bridging-removal call appears
in the trace. -/
theorem C4_media_blocks_migrate_and_bridging (cfg : VcdConfig)
    (vcdObj : VCloudDirectorOperations) (nsxtObj : NSXTOperations)
    (orgUrl srcPvdcId : String) (srcNSXT : Bool) (sourceOrgVDCId : String)
    (egw : EdgeGatewayDetails) (tgtPvdcId : String) (tgtNSXT : Bool)
    (targetOrgVDCId : String) (nets : List String) (msg : String)
    (h1 : vcdObj.vcdLogin = .ok ())
    (h2 : nsxtObj.getComputeManagers = .ok ())
    (h3 : vcdObj.getOrgUrl cfg.orgName = .ok orgUrl)
    (h4 : vcdObj.getProviderVDCId cfg.sourcePVDCName = .ok (srcPvdcId, srcNSXT))
    (h5 : vcdObj.getOrgVDCDetails orgUrl cfg.sourceOrgVDCName = .ok sourceOrgVDCId)
    (h6 : vcdObj.validateOrgVDCNSXbacking sourceOrgVDCId srcPvdcId srcNSXT = .ok ())
    (h7 : vcdObj.getOrgVDCEdgeGateway sourceOrgVDCId = .ok egw)
    (h8 : vcdObj.getProviderVDCId cfg.targetPVDCName = .ok (tgtPvdcId, tgtNSXT))
    (h9 : vcdObj.getOrgVDCDetails orgUrl (cfg.sourceOrgVDCName ++ "-t") = .ok targetOrgVDCId)
    (h10 : vcdObj.validateOrgVDCNSXbacking targetOrgVDCId tgtPvdcId tgtNSXT = .ok ())
    (h11 : vcdObj.validateTargetOrgVDCState targetOrgVDCId = .ok ())
    (h12 : vcdObj.getOrgVDCNetworks targetOrgVDCId = .ok nets)
    (h13 : vcdObj.validateVappVMsMediaState targetOrgVDCId
        = .error (.validationError msg)) :
    (run cfg vcdObj nsxtObj).2 = .error (.validationError msg) ∧
    (((run cfg vcdObj nsxtObj).1.map Call.tag).count CallTag.migrateCatalogItems = 0 ∧
     ((run cfg vcdObj nsxtObj).1.map Call.tag).count CallTag.clearBridging = 0) := by
  rw [run_eq]
  simp only [runBody, h1, h2, h3, h4, h5, h6, h7, h8, h9, h10, h11, h12, h13,
    callStep_ok, callStep_err]
  exact ⟨trivial, rfl, rfl⟩

/-- C2: in every successful run, each of bridging removal and the three
deletions is issued exactly once, and they occur in the order: bridging
removal, then source-network deletion, then edge-gateway deletion, then
source-container deletion. -/
theorem C2_successful_run_ordering (cfg : VcdConfig)
    (vcdObj : VCloudDirectorOperations) (nsxtObj : NSXTOperations)
    (h : (run cfg vcdObj nsxtObj).2 = .ok ()) :
    (tagsOf cfg vcdObj nsxtObj).count CallTag.clearBridging = 1 ∧
    (tagsOf cfg vcdObj nsxtObj).count CallTag.deleteOrgVDCNetworks = 1 ∧
    (tagsOf cfg vcdObj nsxtObj).count CallTag.deleteNsxVBackedOrgVDCEdgeGateways = 1 ∧
    (tagsOf cfg vcdObj nsxtObj).count CallTag.deleteOrgVDC = 1 ∧
    (tagsOf cfg vcdObj nsxtObj).findIdx (fun t => t == CallTag.clearBridging) <
      (tagsOf cfg vcdObj nsxtObj).findIdx (fun t => t == CallTag.deleteOrgVDCNetworks) ∧
    (tagsOf cfg vcdObj nsxtObj).findIdx (fun t => t == CallTag.deleteOrgVDCNetworks) <
      (tagsOf cfg vcdObj nsxtObj).findIdx (fun t => t == CallTag.deleteNsxVBackedOrgVDCEdgeGateways) ∧
    (tagsOf cfg vcdObj nsxtObj).findIdx (fun t => t == CallTag.deleteNsxVBackedOrgVDCEdgeGateways) <
      (tagsOf cfg vcdObj nsxtObj).findIdx (fun t => t == CallTag.deleteOrgVDC) := by
  rw [run_eq] at h
  simp only [runBody] at h
  obtain ⟨a1, hv1, h⟩ := callStep_ok_inv h
  obtain ⟨a2, hv2, h⟩ := callStep_ok_inv h
  obtain ⟨orgUrl, hv3, h⟩ := callStep_ok_inv h
  obtain ⟨srcPvdc, hv4, h⟩ := callStep_ok_inv h
  obtain ⟨srcId, hv5, h⟩ := callStep_ok_inv h
  obtain ⟨a6, hv6, h⟩ := callStep_ok_inv h
  obtain ⟨egw, hv7, h⟩ := callStep_ok_inv h
  obtain ⟨tgtPvdc, hv8, h⟩ := callStep_ok_inv h
  obtain ⟨tgtId, hv9, h⟩ := callStep_ok_inv h
  obtain ⟨a10, hv10, h⟩ := callStep_ok_inv h
  obtain ⟨a11, hv11, h⟩ := callStep_ok_inv h
  obtain ⟨nets, hv12, h⟩ := callStep_ok_inv h
  obtain ⟨a13, hv13, h⟩ := callStep_ok_inv h
  obtain ⟨a14, hv14, h⟩ := callStep_ok_inv h
  obtain ⟨a15, hv15, h⟩ := callStep_ok_inv h
  obtain ⟨a16, hv16, h⟩ := callStep_ok_inv h
  obtain ⟨a17, hv17, h⟩ := callStep_ok_inv h
  obtain ⟨a18, hv18, h⟩ := callStep_ok_inv h
  obtain ⟨a19, hv19, h⟩ := callStep_ok_inv h
  obtain ⟨a20, hv20, h⟩ := callStep_ok_inv h
  cases hip : computeIpPoolUpdate cfg.sourceExternalNetworkName egw with
  | error e =>
    rw [hip] at h
    simp at h
  | ok o =>
    rw [hip] at h
    cases o with
    | none =>
      obtain ⟨a21, hds, h⟩ := callStep_ok_inv h
      simp only [tagsOf, run_eq, runBody, hv1, hv2, hv3, hv4, hv5, hv6, hv7, hv8,
        hv9, hv10, hv11, hv12, hv13, hv14, hv15, hv16, hv17, hv18, hv19, hv20,
        hip, hds, callStep_ok, List.nil_append, List.append_assoc, List.cons_append,
        List.map_cons, List.map_nil, Call.tag]
      decide
    | some rs =>
      obtain ⟨a21, hupd, h⟩ := callStep_ok_inv h
      obtain ⟨a22, hds, h⟩ := callStep_ok_inv h
      simp only [tagsOf, run_eq, runBody, hv1, hv2, hv3, hv4, hv5, hv6, hv7, hv8,
        hv9, hv10, hv11, hv12, hv13, hv14, hv15, hv16, hv17, hv18, hv19, hv20,
        hip, hupd, hds, callStep_ok, List.nil_append, List.append_assoc,
        List.cons_append, List.map_cons, List.map_nil, Call.tag]
      decide

/-- Witness for C2 at a concrete fully-successful run. -/
theorem C2_witness :
    (tagsOf cfg0 vcdOk nsxtOk).count CallTag.clearBridging = 1 ∧
    (tagsOf cfg0 vcdOk nsxtOk).count CallTag.deleteOrgVDCNetworks = 1 ∧
    (tagsOf cfg0 vcdOk nsxtOk).count CallTag.deleteNsxVBackedOrgVDCEdgeGateways = 1 ∧
    (tagsOf cfg0 vcdOk nsxtOk).count CallTag.deleteOrgVDC = 1 ∧
    (tagsOf cfg0 vcdOk nsxtOk).findIdx (fun t => t == CallTag.clearBridging) <
      (tagsOf cfg0 vcdOk nsxtOk).findIdx (fun t => t == CallTag.deleteOrgVDCNetworks) ∧
    (tagsOf cfg0 vcdOk nsxtOk).findIdx (fun t => t == CallTag.deleteOrgVDCNetworks) <
      (tagsOf cfg0 vcdOk nsxtOk).findIdx (fun t => t == CallTag.deleteNsxVBackedOrgVDCEdgeGateways) ∧
    (tagsOf cfg0 vcdOk nsxtOk).findIdx (fun t => t == CallTag.deleteNsxVBackedOrgVDCEdgeGateways) <
      (tagsOf cfg0 vcdOk nsxtOk).findIdx (fun t => t == CallTag.deleteOrgVDC) :=
  C2_successful_run_ordering cfg0 vcdOk nsxtOk rfl

/-- C8: with source container name `N = cfg.sourceOrgVDCName`, the
orchestrator resolves the target container under the derived name
`N ++ "-t"` (line 90), and the final rename call renames the target
container to exactly the marker-free name `N` (line 134).  Both calls
appear in the trace with exactly these arguments whenever the steps
before the final rename succeed, whatever the outcome of the rename call
itself and of the steps after it. -/
theorem C8_target_name_derivation (cfg : VcdConfig)
    (vcdObj : VCloudDirectorOperations) (nsxtObj : NSXTOperations)
    (orgUrl srcPvdcId : String) (srcNSXT : Bool) (sourceOrgVDCId : String)
    (egw : EdgeGatewayDetails) (tgtPvdcId : String) (tgtNSXT : Bool)
    (targetOrgVDCId : String) (nets : List String)
    (h1 : vcdObj.vcdLogin = .ok ())
    (h2 : nsxtObj.getComputeManagers = .ok ())
    (h3 : vcdObj.getOrgUrl cfg.orgName = .ok orgUrl)
    (h4 : vcdObj.getProviderVDCId cfg.sourcePVDCName = .ok (srcPvdcId, srcNSXT))
    (h5 : vcdObj.getOrgVDCDetails orgUrl cfg.sourceOrgVDCName = .ok sourceOrgVDCId)
    (h6 : vcdObj.validateOrgVDCNSXbacking sourceOrgVDCId srcPvdcId srcNSXT = .ok ())
    (h7 : vcdObj.getOrgVDCEdgeGateway sourceOrgVDCId = .ok egw)
    (h8 : vcdObj.getProviderVDCId cfg.targetPVDCName = .ok (tgtPvdcId, tgtNSXT))
    (h9 : vcdObj.getOrgVDCDetails orgUrl (cfg.sourceOrgVDCName ++ "-t") = .ok targetOrgVDCId)
    (h10 : vcdObj.validateOrgVDCNSXbacking targetOrgVDCId tgtPvdcId tgtNSXT = .ok ())
    (h11 : vcdObj.validateTargetOrgVDCState targetOrgVDCId = .ok ())
    (h12 : vcdObj.getOrgVDCNetworks targetOrgVDCId = .ok nets)
    (h13 : vcdObj.validateVappVMsMediaState targetOrgVDCId = .ok ())
    (h14 : vcdObj.migrateCatalogItems sourceOrgVDCId targetOrgVDCId orgUrl = .ok ())
    (h15 : nsxtObj.clearBridging nets = .ok ())
    (h16 : vcdObj.deleteOrgVDCNetworks sourceOrgVDCId = .ok ())
    (h17 : vcdObj.deleteNsxVBackedOrgVDCEdgeGateways sourceOrgVDCId = .ok ())
    (h18 : vcdObj.deleteOrgVDC sourceOrgVDCId = .ok ())
    (h19 : vcdObj.renameTargetOrgVDCNetworks targetOrgVDCId = .ok ()) :
    Call.getOrgVDCDetails orgUrl (cfg.sourceOrgVDCName ++ "-t") ∈ (run cfg vcdObj nsxtObj).1 ∧
    Call.renameOrgVDC cfg.sourceOrgVDCName targetOrgVDCId ∈ (run cfg vcdObj nsxtObj).1 := by
  rw [run_eq]
  simp only [runBody, h1, h2, h3, h4, h5, h6, h7, h8, h9, h10, h11, h12, h13,
    h14, h15, h16, h17, h18, h19, callStep_ok]
  cases hr : vcdObj.renameOrgVDC cfg.sourceOrgVDCName targetOrgVDCId with
  | error e => simp [callStep_err]
  | ok a =>
    simp only [callStep_ok]
    cases hip : computeIpPoolUpdate cfg.sourceExternalNetworkName egw with
    | error e => simp
    | ok o =>
      cases o with
      | none => cases hds : vcdObj.deleteSession <;> simp [callStep, hds]
      | some rs =>
        cases hu : vcdObj.updateSourceExternalNetwork cfg.sourceExternalNetworkName rs with
        | error e => simp [callStep, hu]
        | ok b => cases hds : vcdObj.deleteSession <;> simp [callStep, hu, hds]

/-- Witness for C8 at a concrete configuration: target resolved as
`svdc-t`, rename issued with the marker-free name `svdc`. -/
theorem C8_witness :
    Call.getOrgVDCDetails "orgUrl1" ("svdc" ++ "-t") ∈ (run cfg0 vcdOk nsxtOk).1 ∧
    Call.renameOrgVDC "svdc" "id-svdc-t" ∈ (run cfg0 vcdOk nsxtOk).1 := by
  have h := C8_target_name_derivation cfg0 vcdOk nsxtOk "orgUrl1" "pvdc-spvdc"
    false "id-svdc" egwDefault "pvdc-tpvdc" true "id-svdc-t" ["net1", "net2"]
    rfl rfl rfl rfl rfl rfl rfl rfl rfl rfl rfl rfl rfl rfl rfl rfl rfl rfl rfl
  exact h

/-- C9: if the captured edge-gateway payload has an empty gateway list,
or the first matching uplink of the first gateway carries no subnets,
the IP-pool reconciliation (lines 137-140) raises `IndexError`
(unguarded list indexing) instead of skipping, and this failure occurs
only after bridging removal, the three deletions, and both renames have
already been applied; no `updateSourceExternalNetwork` call is made. -/
theorem C9_unguarded_indexing_after_destruction (cfg : VcdConfig)
    (vcdObj : VCloudDirectorOperations) (nsxtObj : NSXTOperations)
    (orgUrl srcPvdcId : String) (srcNSXT : Bool) (sourceOrgVDCId : String)
    (egw : EdgeGatewayDetails) (tgtPvdcId : String) (tgtNSXT : Bool)
    (targetOrgVDCId : String) (nets : List String)
    (h1 : vcdObj.vcdLogin = .ok ())
    (h2 : nsxtObj.getComputeManagers = .ok ())
    (h3 : vcdObj.getOrgUrl cfg.orgName = .ok orgUrl)
    (h4 : vcdObj.getProviderVDCId cfg.sourcePVDCName = .ok (srcPvdcId, srcNSXT))
    (h5 : vcdObj.getOrgVDCDetails orgUrl cfg.sourceOrgVDCName = .ok sourceOrgVDCId)
    (h6 : vcdObj.validateOrgVDCNSXbacking sourceOrgVDCId srcPvdcId srcNSXT = .ok ())
    (h7 : vcdObj.getOrgVDCEdgeGateway sourceOrgVDCId = .ok egw)
    (h8 : vcdObj.getProviderVDCId cfg.targetPVDCName = .ok (tgtPvdcId, tgtNSXT))
    (h9 : vcdObj.getOrgVDCDetails orgUrl (cfg.sourceOrgVDCName ++ "-t") = .ok targetOrgVDCId)
    (h10 : vcdObj.validateOrgVDCNSXbacking targetOrgVDCId tgtPvdcId tgtNSXT = .ok ())
    (h11 : vcdObj.validateTargetOrgVDCState targetOrgVDCId = .ok ())
    (h12 : vcdObj.getOrgVDCNetworks targetOrgVDCId = .ok nets)
    (h13 : vcdObj.validateVappVMsMediaState targetOrgVDCId = .ok ())
    (h14 : vcdObj.migrateCatalogItems sourceOrgVDCId targetOrgVDCId orgUrl = .ok ())
    (h15 : nsxtObj.clearBridging nets = .ok ())
    (h16 : vcdObj.deleteOrgVDCNetworks sourceOrgVDCId = .ok ())
    (h17 : vcdObj.deleteNsxVBackedOrgVDCEdgeGateways sourceOrgVDCId = .ok ())
    (h18 : vcdObj.deleteOrgVDC sourceOrgVDCId = .ok ())
    (h19 : vcdObj.renameTargetOrgVDCNetworks targetOrgVDCId = .ok ())
    (h20 : vcdObj.renameOrgVDC cfg.sourceOrgVDCName targetOrgVDCId = .ok ())
    (hcond : egw.values = [] ∨
      ∃ gw gws u us, egw.values = gw :: gws ∧
        gw.edgeGatewayUplinks.filter
          (fun x => x.uplinkName == cfg.sourceExternalNetworkName) = u :: us ∧
        u.subnets.values = []) :
    (run cfg vcdObj nsxtObj).2 = .error (.indexError "list index out of range") ∧
    (tagsOf cfg vcdObj nsxtObj).count CallTag.clearBridging = 1 ∧
    (tagsOf cfg vcdObj nsxtObj).count CallTag.deleteOrgVDCNetworks = 1 ∧
    (tagsOf cfg vcdObj nsxtObj).count CallTag.deleteNsxVBackedOrgVDCEdgeGateways = 1 ∧
    (tagsOf cfg vcdObj nsxtObj).count CallTag.deleteOrgVDC = 1 ∧
    (tagsOf cfg vcdObj nsxtObj).count CallTag.renameTargetOrgVDCNetworks = 1 ∧
    (tagsOf cfg vcdObj nsxtObj).count CallTag.renameOrgVDC = 1 ∧
    (tagsOf cfg vcdObj nsxtObj).count CallTag.updateSourceExternalNetwork = 0 := by
  have hip : computeIpPoolUpdate cfg.sourceExternalNetworkName egw
      = .error (.indexError "list index out of range") := by
    rcases hcond with hempty | ⟨gw, gws, u, us, hv, hf, hs⟩
    · simp [computeIpPoolUpdate, hempty]
    · simp [computeIpPoolUpdate, hv, hf, hs]
  simp only [tagsOf, run_eq, runBody, h1, h2, h3, h4, h5, h6, h7, h8, h9, h10,
    h11, h12, h13, h14, h15, h16, h17, h18, h19, h20, hip, callStep_ok,
    List.nil_append, List.append_assoc, List.cons_append, List.map_cons,
    List.map_nil, Call.tag]
  exact ⟨trivial, by decide⟩

/-- Witness for C9 at a concrete configuration with an empty gateway
list. -/
theorem C9_witness :
    (run cfg0 vcdC9 nsxtOk).2 = .error (.indexError "list index out of range") ∧
    (tagsOf cfg0 vcdC9 nsxtOk).count CallTag.clearBridging = 1 ∧
    (tagsOf cfg0 vcdC9 nsxtOk).count CallTag.deleteOrgVDCNetworks = 1 ∧
    (tagsOf cfg0 vcdC9 nsxtOk).count CallTag.deleteNsxVBackedOrgVDCEdgeGateways = 1 ∧
    (tagsOf cfg0 vcdC9 nsxtOk).count CallTag.deleteOrgVDC = 1 ∧
    (tagsOf cfg0 vcdC9 nsxtOk).count CallTag.renameTargetOrgVDCNetworks = 1 ∧
    (tagsOf cfg0 vcdC9 nsxtOk).count CallTag.renameOrgVDC = 1 ∧
    (tagsOf cfg0 vcdC9 nsxtOk).count CallTag.updateSourceExternalNetwork = 0 :=
  C9_unguarded_indexing_after_destruction cfg0 vcdC9 nsxtOk "orgUrl1"
    "pvdc-spvdc" false "id-svdc" ⟨[]⟩ "pvdc-tpvdc" true "id-svdc-t"
    ["net1", "net2"] rfl rfl rfl rfl rfl rfl rfl rfl rfl rfl rfl rfl rfl rfl
    rfl rfl rfl rfl rfl rfl (Or.inl rfl)

/-- C5 counterexample: with an empty gateway list in the captured
payload, the configured external-network name `extnet` matches no uplink
(the payload holds no uplink at all), yet `run` fails with `IndexError`
rather than skipping the IP-pool update without failure, refuting the
claim that a configuration with no matching uplink never fails at this
step. -/
theorem C5_counterexample :
    ((⟨[]⟩ : EdgeGatewayDetails).values.all fun gw =>
        gw.edgeGatewayUplinks.all fun u =>
          !(u.uplinkName == cfg0.sourceExternalNetworkName)) = true ∧
    vcdC9.getOrgVDCEdgeGateway "id-svdc" = .ok ⟨[]⟩ ∧
    (run cfg0 vcdC9 nsxtOk).2 = .error (.indexError "list index out of range") :=
  ⟨rfl, rfl, rfl⟩

/-- C5 amended: whenever the IP-pool lookup on the captured payload does
not itself raise (`computeIpPoolUpdate` returns `.ok`), and all other
steps succeed: if the lookup yields nothing (the name matches no uplink
of the first gateway, or the first matching uplink's first subnet has an
empty IP-range list), `run` makes no `updateSourceExternalNetwork` call
and succeeds; if it yields ranges (that first subnet's range list is
non-empty), `updateSourceExternalNetwork` is invoked exactly once, with
exactly those captured ranges. -/
theorem C5_ip_reconciliation_amended (cfg : VcdConfig)
    (vcdObj : VCloudDirectorOperations) (nsxtObj : NSXTOperations)
    (orgUrl srcPvdcId : String) (srcNSXT : Bool) (sourceOrgVDCId : String)
    (egw : EdgeGatewayDetails) (tgtPvdcId : String) (tgtNSXT : Bool)
    (targetOrgVDCId : String) (nets : List String) (ipOpt : Option (List String))
    (h1 : vcdObj.vcdLogin = .ok ())
    (h2 : nsxtObj.getComputeManagers = .ok ())
    (h3 : vcdObj.getOrgUrl cfg.orgName = .ok orgUrl)
    (h4 : vcdObj.getProviderVDCId cfg.sourcePVDCName = .ok (srcPvdcId, srcNSXT))
    (h5 : vcdObj.getOrgVDCDetails orgUrl cfg.sourceOrgVDCName = .ok sourceOrgVDCId)
    (h6 : vcdObj.validateOrgVDCNSXbacking sourceOrgVDCId srcPvdcId srcNSXT = .ok ())
    (h7 : vcdObj.getOrgVDCEdgeGateway sourceOrgVDCId = .ok egw)
    (h8 : vcdObj.getProviderVDCId cfg.targetPVDCName = .ok (tgtPvdcId, tgtNSXT))
    (h9 : vcdObj.getOrgVDCDetails orgUrl (cfg.sourceOrgVDCName ++ "-t") = .ok targetOrgVDCId)
    (h10 : vcdObj.validateOrgVDCNSXbacking targetOrgVDCId tgtPvdcId tgtNSXT = .ok ())
    (h11 : vcdObj.validateTargetOrgVDCState targetOrgVDCId = .ok ())
    (h12 : vcdObj.getOrgVDCNetworks targetOrgVDCId = .ok nets)
    (h13 : vcdObj.validateVappVMsMediaState targetOrgVDCId = .ok ())
    (h14 : vcdObj.migrateCatalogItems sourceOrgVDCId targetOrgVDCId orgUrl = .ok ())
    (h15 : nsxtObj.clearBridging nets = .ok ())
    (h16 : vcdObj.deleteOrgVDCNetworks sourceOrgVDCId = .ok ())
    (h17 : vcdObj.deleteNsxVBackedOrgVDCEdgeGateways sourceOrgVDCId = .ok ())
    (h18 : vcdObj.deleteOrgVDC sourceOrgVDCId = .ok ())
    (h19 : vcdObj.renameTargetOrgVDCNetworks targetOrgVDCId = .ok ())
    (h20 : vcdObj.renameOrgVDC cfg.sourceOrgVDCName targetOrgVDCId = .ok ())
    (hip : computeIpPoolUpdate cfg.sourceExternalNetworkName egw = .ok ipOpt)
    (hupd : ∀ rs, ipOpt = some rs →
        vcdObj.updateSourceExternalNetwork cfg.sourceExternalNetworkName rs = .ok ())
    (hds : vcdObj.deleteSession = .ok ()) :
    (run cfg vcdObj nsxtObj).2 = .ok () ∧
    (run cfg vcdObj nsxtObj).1.filter
        (fun c => c.tag == CallTag.updateSourceExternalNetwork)
      = (match ipOpt with
         | none => []
         | some rs => [Call.updateSourceExternalNetwork cfg.sourceExternalNetworkName rs]) := by
  cases ipOpt with
  | none =>
    simp only [run_eq, runBody, h1, h2, h3, h4, h5, h6, h7, h8, h9, h10, h11,
      h12, h13, h14, h15, h16, h17, h18, h19, h20, hip, hds, callStep_ok,
      List.nil_append, List.cons_append, List.append_assoc]
    refine ⟨trivial, ?_⟩
    simp [Call.tag]
  | some rs =>
    have hu := hupd rs rfl
    simp only [run_eq, runBody, h1, h2, h3, h4, h5, h6, h7, h8, h9, h10, h11,
      h12, h13, h14, h15, h16, h17, h18, h19, h20, hip, hu, hds, callStep_ok,
      List.nil_append, List.cons_append, List.append_assoc]
    refine ⟨trivial, ?_⟩
    simp [Call.tag]

/-- Witness for the amended C5 at a concrete configuration whose first
gateway's matching uplink carries one subnet with a non-empty IP-range
list: the update call is issued exactly once with those ranges. -/
theorem C5_witness :
    (run cfg0 vcdOk nsxtOk).2 = .ok () ∧
    (run cfg0 vcdOk nsxtOk).1.filter
        (fun c => c.tag == CallTag.updateSourceExternalNetwork)
      = [Call.updateSourceExternalNetwork "extnet" ["10.10.10.2-10.10.10.20"]] :=
  C5_ip_reconciliation_amended cfg0 vcdOk nsxtOk "orgUrl1" "pvdc-spvdc" false
    "id-svdc" egwDefault "pvdc-tpvdc" true "id-svdc-t" ["net1", "net2"]
    (some ["10.10.10.2-10.10.10.20"]) rfl rfl rfl rfl rfl rfl rfl rfl rfl rfl
    rfl rfl rfl rfl rfl rfl rfl rfl rfl rfl rfl (fun rs h => by cases h; rfl) rfl

/-- C6 counterexample: with every step succeeding except `deleteSession`,
`run` does not complete successfully — the `except Exception: raise`
handler re-raises the logout failure — refuting the claim that a logout
failure leaves the overall outcome successful. -/
theorem C6_counterexample :
    vcdC6.deleteSession = .error (.operationError "logout failed") ∧
    (run cfg0 vcdC6 nsxtOk).2 = .error (.operationError "logout failed") :=
  ⟨rfl, rfl⟩

/-- C6 amended: a failure of the final `deleteSession` step propagates
out of `run` (the run does not complete successfully), but it occurs
only after all mutating work is complete: `deleteSession` is the last
issued call, and bridging removal, the three deletions and both renames
are already in the trace. -/
theorem C6_deleteSession_failure_amended (cfg : VcdConfig)
    (vcdObj : VCloudDirectorOperations) (nsxtObj : NSXTOperations)
    (orgUrl srcPvdcId : String) (srcNSXT : Bool) (sourceOrgVDCId : String)
    (egw : EdgeGatewayDetails) (tgtPvdcId : String) (tgtNSXT : Bool)
    (targetOrgVDCId : String) (nets : List String) (ipOpt : Option (List String))
    (e : CleanupError)
    (h1 : vcdObj.vcdLogin = .ok ())
    (h2 : nsxtObj.getComputeManagers = .ok ())
    (h3 : vcdObj.getOrgUrl cfg.orgName = .ok orgUrl)
    (h4 : vcdObj.getProviderVDCId cfg.sourcePVDCName = .ok (srcPvdcId, srcNSXT))
    (h5 : vcdObj.getOrgVDCDetails orgUrl cfg.sourceOrgVDCName = .ok sourceOrgVDCId)
    (h6 : vcdObj.validateOrgVDCNSXbacking sourceOrgVDCId srcPvdcId srcNSXT = .ok ())
    (h7 : vcdObj.getOrgVDCEdgeGateway sourceOrgVDCId = .ok egw)
    (h8 : vcdObj.getProviderVDCId cfg.targetPVDCName = .ok (tgtPvdcId, tgtNSXT))
    (h9 : vcdObj.getOrgVDCDetails orgUrl (cfg.sourceOrgVDCName ++ "-t") = .ok targetOrgVDCId)
    (h10 : vcdObj.validateOrgVDCNSXbacking targetOrgVDCId tgtPvdcId tgtNSXT = .ok ())
    (h11 : vcdObj.validateTargetOrgVDCState targetOrgVDCId = .ok ())
    (h12 : vcdObj.getOrgVDCNetworks targetOrgVDCId = .ok nets)
    (h13 : vcdObj.validateVappVMsMediaState targetOrgVDCId = .ok ())
    (h14 : vcdObj.migrateCatalogItems sourceOrgVDCId targetOrgVDCId orgUrl = .ok ())
    (h15 : nsxtObj.clearBridging nets = .ok ())
    (h16 : vcdObj.deleteOrgVDCNetworks sourceOrgVDCId = .ok ())
    (h17 : vcdObj.deleteNsxVBackedOrgVDCEdgeGateways sourceOrgVDCId = .ok ())
    (h18 : vcdObj.deleteOrgVDC sourceOrgVDCId = .ok ())
    (h19 : vcdObj.renameTargetOrgVDCNetworks targetOrgVDCId = .ok ())
    (h20 : vcdObj.renameOrgVDC cfg.sourceOrgVDCName targetOrgVDCId = .ok ())
    (hip : computeIpPoolUpdate cfg.sourceExternalNetworkName egw = .ok ipOpt)
    (hupd : ∀ rs, ipOpt = some rs →
        vcdObj.updateSourceExternalNetwork cfg.sourceExternalNetworkName rs = .ok ())
    (hds : vcdObj.deleteSession = .error e) :
    (run cfg vcdObj nsxtObj).2 = .error e ∧
    (run cfg vcdObj nsxtObj).1.getLast? = some Call.deleteSession ∧
    (tagsOf cfg vcdObj nsxtObj).count CallTag.clearBridging = 1 ∧
    (tagsOf cfg vcdObj nsxtObj).count CallTag.deleteOrgVDCNetworks = 1 ∧
    (tagsOf cfg vcdObj nsxtObj).count CallTag.deleteNsxVBackedOrgVDCEdgeGateways = 1 ∧
    (tagsOf cfg vcdObj nsxtObj).count CallTag.deleteOrgVDC = 1 ∧
    (tagsOf cfg vcdObj nsxtObj).count CallTag.renameTargetOrgVDCNetworks = 1 ∧
    (tagsOf cfg vcdObj nsxtObj).count CallTag.renameOrgVDC = 1 := by
  cases ipOpt with
  | none =>
    simp only [tagsOf, run_eq, runBody, h1, h2, h3, h4, h5, h6, h7, h8, h9, h10,
      h11, h12, h13, h14, h15, h16, h17, h18, h19, h20, hip, hds, callStep_ok,
      callStep_err, List.nil_append, List.cons_append, List.append_assoc,
      List.map_cons, List.map_nil, Call.tag]
    exact ⟨trivial, rfl, by decide, by decide, by decide, by decide, by decide,
      by decide⟩
  | some rs =>
    have hu := hupd rs rfl
    simp only [tagsOf, run_eq, runBody, h1, h2, h3, h4, h5, h6, h7, h8, h9, h10,
      h11, h12, h13, h14, h15, h16, h17, h18, h19, h20, hip, hu, hds, callStep_ok,
      callStep_err, List.nil_append, List.cons_append, List.append_assoc,
      List.map_cons, List.map_nil, Call.tag]
    exact ⟨trivial, rfl, by decide, by decide, by decide, by decide, by decide,
      by decide⟩

/-- Witness for the amended C6 at a concrete configuration. -/
theorem C6_witness :
    (run cfg0 vcdC6 nsxtOk).2 = .error (.operationError "logout failed") ∧
    (run cfg0 vcdC6 nsxtOk).1.getLast? = some Call.deleteSession ∧
    (tagsOf cfg0 vcdC6 nsxtOk).count CallTag.clearBridging = 1 ∧
    (tagsOf cfg0 vcdC6 nsxtOk).count CallTag.deleteOrgVDCNetworks = 1 ∧
    (tagsOf cfg0 vcdC6 nsxtOk).count CallTag.deleteNsxVBackedOrgVDCEdgeGateways = 1 ∧
    (tagsOf cfg0 vcdC6 nsxtOk).count CallTag.deleteOrgVDC = 1 ∧
    (tagsOf cfg0 vcdC6 nsxtOk).count CallTag.renameTargetOrgVDCNetworks = 1 ∧
    (tagsOf cfg0 vcdC6 nsxtOk).count CallTag.renameOrgVDC = 1 :=
  C6_deleteSession_failure_amended cfg0 vcdC6 nsxtOk "orgUrl1" "pvdc-spvdc"
    false "id-svdc" egwDefault "pvdc-tpvdc" true "id-svdc-t" ["net1", "net2"]
    (some ["10.10.10.2-10.10.10.20"]) (.operationError "logout failed")
    rfl rfl rfl rfl rfl rfl rfl rfl rfl rfl rfl rfl rfl rfl rfl rfl rfl rfl
    rfl rfl rfl (fun rs h => by cases h; rfl) rfl

/-- Inversion: the IP-pool lookup yields ranges only from the first
subnet of the first matching uplink of the first gateway. -/
theorem computeIpPoolUpdate_ok_some {n : String} {egw : EdgeGatewayDetails}
    {rs : List String} (h : computeIpPoolUpdate n egw = .ok (some rs)) :
    ∃ gw gws u us s ss, egw.values = gw :: gws ∧
      gw.edgeGatewayUplinks.filter (fun x => x.uplinkName == n) = u :: us ∧
      u.subnets.values = s :: ss ∧ rs = s.ipRanges.values := by
  cases hv : egw.values with
  | nil => simp [computeIpPoolUpdate, hv] at h
  | cons gw gws =>
    cases hf : gw.edgeGatewayUplinks.filter (fun x => x.uplinkName == n) with
    | nil => simp [computeIpPoolUpdate, hv, hf] at h
    | cons u us =>
      cases hs : u.subnets.values with
      | nil => simp [computeIpPoolUpdate, hv, hf, hs] at h
      | cons s ss =>
        by_cases he : s.ipRanges.values.isEmpty
        · simp [computeIpPoolUpdate, hv, hf, hs, he] at h
        · simp [computeIpPoolUpdate, hv, hf, hs, he] at h
          exact ⟨gw, gws, u, us, s, ss, rfl, hf, hs, h.symm⟩

/-- C10: the IP-pool reconciliation searches only the uplinks of the
first gateway of the captured payload and, on a match, considers only
the first subnet of the first matching uplink: (a) later gateways do not
influence the lookup at all; (b) any `updateSourceExternalNetwork` call
in the trace carries exactly the configured name and the IP ranges of
the first subnet of the first matching uplink of the first gateway;
(c) if the first gateway's uplinks contain no match, no update call is
issued, whatever later gateways contain; (d) if the first matching
uplink's first subnet has an empty range list, no update call is issued,
whatever later subnets contain. -/
theorem C10_first_gateway_first_subnet_only (cfg : VcdConfig)
    (vcdObj : VCloudDirectorOperations) (nsxtObj : NSXTOperations)
    (orgUrl srcPvdcId : String) (srcNSXT : Bool) (sourceOrgVDCId : String)
    (egw : EdgeGatewayDetails) (tgtPvdcId : String) (tgtNSXT : Bool)
    (targetOrgVDCId : String) (nets : List String)
    (gw : EdgeGateway) (gws : List EdgeGateway)
    (h1 : vcdObj.vcdLogin = .ok ())
    (h2 : nsxtObj.getComputeManagers = .ok ())
    (h3 : vcdObj.getOrgUrl cfg.orgName = .ok orgUrl)
    (h4 : vcdObj.getProviderVDCId cfg.sourcePVDCName = .ok (srcPvdcId, srcNSXT))
    (h5 : vcdObj.getOrgVDCDetails orgUrl cfg.sourceOrgVDCName = .ok sourceOrgVDCId)
    (h6 : vcdObj.validateOrgVDCNSXbacking sourceOrgVDCId srcPvdcId srcNSXT = .ok ())
    (h7 : vcdObj.getOrgVDCEdgeGateway sourceOrgVDCId = .ok egw)
    (h8 : vcdObj.getProviderVDCId cfg.targetPVDCName = .ok (tgtPvdcId, tgtNSXT))
    (h9 : vcdObj.getOrgVDCDetails orgUrl (cfg.sourceOrgVDCName ++ "-t") = .ok targetOrgVDCId)
    (h10 : vcdObj.validateOrgVDCNSXbacking targetOrgVDCId tgtPvdcId tgtNSXT = .ok ())
    (h11 : vcdObj.validateTargetOrgVDCState targetOrgVDCId = .ok ())
    (h12 : vcdObj.getOrgVDCNetworks targetOrgVDCId = .ok nets)
    (h13 : vcdObj.validateVappVMsMediaState targetOrgVDCId = .ok ())
    (h14 : vcdObj.migrateCatalogItems sourceOrgVDCId targetOrgVDCId orgUrl = .ok ())
    (h15 : nsxtObj.clearBridging nets = .ok ())
    (h16 : vcdObj.deleteOrgVDCNetworks sourceOrgVDCId = .ok ())
    (h17 : vcdObj.deleteNsxVBackedOrgVDCEdgeGateways sourceOrgVDCId = .ok ())
    (h18 : vcdObj.deleteOrgVDC sourceOrgVDCId = .ok ())
    (h19 : vcdObj.renameTargetOrgVDCNetworks targetOrgVDCId = .ok ())
    (h20 : vcdObj.renameOrgVDC cfg.sourceOrgVDCName targetOrgVDCId = .ok ())
    (hv : egw.values = gw :: gws) :
    computeIpPoolUpdate cfg.sourceExternalNetworkName egw
      = computeIpPoolUpdate cfg.sourceExternalNetworkName ⟨[gw]⟩ ∧
    (∀ n rs, Call.updateSourceExternalNetwork n rs ∈ (run cfg vcdObj nsxtObj).1 →
      n = cfg.sourceExternalNetworkName ∧
      ∃ u us s ss,
        gw.edgeGatewayUplinks.filter
          (fun x => x.uplinkName == cfg.sourceExternalNetworkName) = u :: us ∧
        u.subnets.values = s :: ss ∧ rs = s.ipRanges.values) ∧
    (gw.edgeGatewayUplinks.filter
        (fun x => x.uplinkName == cfg.sourceExternalNetworkName) = [] →
      (tagsOf cfg vcdObj nsxtObj).count CallTag.updateSourceExternalNetwork = 0) ∧
    (∀ u us s ss,
      gw.edgeGatewayUplinks.filter
        (fun x => x.uplinkName == cfg.sourceExternalNetworkName) = u :: us →
      u.subnets.values = s :: ss → s.ipRanges.values = [] →
      (tagsOf cfg vcdObj nsxtObj).count CallTag.updateSourceExternalNetwork = 0) := by
  have extract : ∀ (n : String) (rs rs0 : List String),
      computeIpPoolUpdate cfg.sourceExternalNetworkName egw = .ok (some rs0) →
      n = cfg.sourceExternalNetworkName → rs = rs0 →
      n = cfg.sourceExternalNetworkName ∧
      ∃ u us s ss,
        gw.edgeGatewayUplinks.filter
          (fun x => x.uplinkName == cfg.sourceExternalNetworkName) = u :: us ∧
        u.subnets.values = s :: ss ∧ rs = s.ipRanges.values := by
    intro n rs rs0 hip hn hrs
    obtain ⟨gw2, gws2, u, us, s, ss, hv2, hf, hs, hrs0⟩ :=
      computeIpPoolUpdate_ok_some hip
    rw [hv] at hv2
    injection hv2 with hg hgs
    subst hg
    exact ⟨hn, u, us, s, ss, hf, hs, by rw [hrs, hrs0]⟩
  refine ⟨?_, ?_, ?_, ?_⟩
  · simp [computeIpPoolUpdate, hv]
  · intro n rs hmem
    cases hip : computeIpPoolUpdate cfg.sourceExternalNetworkName egw with
    | error e =>
      simp only [run_eq, runBody, h1, h2, h3, h4, h5, h6, h7, h8, h9, h10, h11,
        h12, h13, h14, h15, h16, h17, h18, h19, h20, hip, callStep_ok,
        List.nil_append, List.cons_append, List.append_assoc] at hmem
      simp at hmem
    | ok o =>
      cases o with
      | none =>
        cases hds : vcdObj.deleteSession with
        | error e =>
          simp only [run_eq, runBody, h1, h2, h3, h4, h5, h6, h7, h8, h9, h10,
            h11, h12, h13, h14, h15, h16, h17, h18, h19, h20, hip, hds,
            callStep_ok, callStep_err, List.nil_append, List.cons_append,
            List.append_assoc] at hmem
          simp at hmem
        | ok b =>
          simp only [run_eq, runBody, h1, h2, h3, h4, h5, h6, h7, h8, h9, h10,
            h11, h12, h13, h14, h15, h16, h17, h18, h19, h20, hip, hds,
            callStep_ok, callStep_err, List.nil_append, List.cons_append,
            List.append_assoc] at hmem
          simp at hmem
      | some rs0 =>
        cases hu : vcdObj.updateSourceExternalNetwork cfg.sourceExternalNetworkName rs0 with
        | error e =>
          simp only [run_eq, runBody, h1, h2, h3, h4, h5, h6, h7, h8, h9, h10,
            h11, h12, h13, h14, h15, h16, h17, h18, h19, h20, hip, hu,
            callStep_ok, callStep_err, List.nil_append, List.cons_append,
            List.append_assoc] at hmem
          simp at hmem
          exact extract n rs rs0 hip hmem.1 hmem.2
        | ok b =>
          cases hds : vcdObj.deleteSession with
          | error e2 =>
            simp only [run_eq, runBody, h1, h2, h3, h4, h5, h6, h7, h8, h9, h10,
              h11, h12, h13, h14, h15, h16, h17, h18, h19, h20, hip, hu, hds,
              callStep_ok, callStep_err, List.nil_append, List.cons_append,
              List.append_assoc] at hmem
            simp at hmem
            exact extract n rs rs0 hip hmem.1 hmem.2
          | ok b2 =>
            simp only [run_eq, runBody, h1, h2, h3, h4, h5, h6, h7, h8, h9, h10,
              h11, h12, h13, h14, h15, h16, h17, h18, h19, h20, hip, hu, hds,
              callStep_ok, callStep_err, List.nil_append, List.cons_append,
              List.append_assoc] at hmem
            simp at hmem
            exact extract n rs rs0 hip hmem.1 hmem.2
  · intro hf
    have hip : computeIpPoolUpdate cfg.sourceExternalNetworkName egw = .ok none := by
      simp [computeIpPoolUpdate, hv, hf]
    cases hds : vcdObj.deleteSession with
    | error e =>
      simp only [tagsOf, run_eq, runBody, h1, h2, h3, h4, h5, h6, h7, h8, h9,
        h10, h11, h12, h13, h14, h15, h16, h17, h18, h19, h20, hip, hds,
        callStep_ok, callStep_err, List.nil_append, List.cons_append,
        List.append_assoc, List.map_cons, List.map_nil, Call.tag]
      decide
    | ok b =>
      simp only [tagsOf, run_eq, runBody, h1, h2, h3, h4, h5, h6, h7, h8, h9,
        h10, h11, h12, h13, h14, h15, h16, h17, h18, h19, h20, hip, hds,
        callStep_ok, callStep_err, List.nil_append, List.cons_append,
        List.append_assoc, List.map_cons, List.map_nil, Call.tag]
      decide
  · intro u us s ss hf hs hr
    have hip : computeIpPoolUpdate cfg.sourceExternalNetworkName egw = .ok none := by
      simp [computeIpPoolUpdate, hv, hf, hs, hr]
    cases hds : vcdObj.deleteSession with
    | error e =>
      simp only [tagsOf, run_eq, runBody, h1, h2, h3, h4, h5, h6, h7, h8, h9,
        h10, h11, h12, h13, h14, h15, h16, h17, h18, h19, h20, hip, hds,
        callStep_ok, callStep_err, List.nil_append, List.cons_append,
        List.append_assoc, List.map_cons, List.map_nil, Call.tag]
      decide
    | ok b =>
      simp only [tagsOf, run_eq, runBody, h1, h2, h3, h4, h5, h6, h7, h8, h9,
        h10, h11, h12, h13, h14, h15, h16, h17, h18, h19, h20, hip, hds,
        callStep_ok, callStep_err, List.nil_append, List.cons_append,
        List.append_assoc, List.map_cons, List.map_nil, Call.tag]
      decide

/-- Witness for C10 at a concrete configuration. -/
theorem C10_witness :
    computeIpPoolUpdate cfg0.sourceExternalNetworkName egwDefault
      = computeIpPoolUpdate cfg0.sourceExternalNetworkName ⟨[gw0]⟩ ∧
    (∀ n rs, Call.updateSourceExternalNetwork n rs ∈ (run cfg0 vcdOk nsxtOk).1 →
      n = cfg0.sourceExternalNetworkName ∧
      ∃ u us s ss,
        gw0.edgeGatewayUplinks.filter
          (fun x => x.uplinkName == cfg0.sourceExternalNetworkName) = u :: us ∧
        u.subnets.values = s :: ss ∧ rs = s.ipRanges.values) ∧
    (gw0.edgeGatewayUplinks.filter
        (fun x => x.uplinkName == cfg0.sourceExternalNetworkName) = [] →
      (tagsOf cfg0 vcdOk nsxtOk).count CallTag.updateSourceExternalNetwork = 0) ∧
    (∀ u us s ss,
      gw0.edgeGatewayUplinks.filter
        (fun x => x.uplinkName == cfg0.sourceExternalNetworkName) = u :: us →
      u.subnets.values = s :: ss → s.ipRanges.values = [] →
      (tagsOf cfg0 vcdOk nsxtOk).count CallTag.updateSourceExternalNetwork = 0) :=
  C10_first_gateway_first_subnet_only cfg0 vcdOk nsxtOk "orgUrl1" "pvdc-spvdc"
    false "id-svdc" egwDefault "pvdc-tpvdc" true "id-svdc-t" ["net1", "net2"]
    gw0 [] rfl rfl rfl rfl rfl rfl rfl rfl rfl rfl rfl rfl rfl rfl rfl rfl rfl
    rfl rfl rfl rfl

/-- Witness for C4 at a concrete configuration. -/
theorem C4_witness :
    (run cfg0 vcdC4 nsxtOk).2 = .error (.validationError "media attached") ∧
    (((run cfg0 vcdC4 nsxtOk).1.map Call.tag).count CallTag.migrateCatalogItems = 0 ∧
     ((run cfg0 vcdC4 nsxtOk).1.map Call.tag).count CallTag.clearBridging = 0) :=
  C4_media_blocks_migrate_and_bridging cfg0 vcdC4 nsxtOk "orgUrl1" "pvdc-spvdc"
    false "id-svdc" egwDefault "pvdc-tpvdc" true "id-svdc-t" ["net1", "net2"]
    "media attached" rfl rfl rfl rfl rfl rfl rfl rfl rfl rfl rfl rfl rfl

/-- C7: errors are fail-fast and surfaced unchanged: the
`except Exception: raise` wrapper is the identity on both the outcome and
the trace (no local recovery, no extra calls from the handler), and on
any failing run the recorded calls form an initial segment of the
straight-line call order — the run stops at the failing call and issues
no compensating rollback call for steps already applied. -/
theorem C7_fail_fast_no_rollback (cfg : VcdConfig)
    (vcdObj : VCloudDirectorOperations) (nsxtObj : NSXTOperations) :
    run cfg vcdObj nsxtObj = runBody cfg vcdObj nsxtObj ∧
    ∀ e, (run cfg vcdObj nsxtObj).2 = .error e →
      ((tagsOf cfg vcdObj nsxtObj).isPrefixOf fullCallOrder = true ∨
       (tagsOf cfg vcdObj nsxtObj).isPrefixOf fullCallOrderWithUpdate = true) := by
  refine ⟨run_eq cfg vcdObj nsxtObj, ?_⟩
  intro e he
  simp only [tagsOf, run_eq] at he ⊢
  simp only [runBody] at he ⊢
  cases hv1 : vcdObj.vcdLogin with
  | error e1 =>
    simp only [hv1, callStep_err, List.nil_append, List.cons_append, List.append_assoc, List.map_cons, List.map_nil, Call.tag]
    decide
  | ok a1 =>
    simp only [hv1, callStep_ok] at he ⊢
    cases hv2 : nsxtObj.getComputeManagers with
    | error e2 =>
      simp only [hv2, callStep_err, List.nil_append, List.cons_append, List.append_assoc, List.map_cons, List.map_nil, Call.tag]
      decide
    | ok a2 =>
      simp only [hv2, callStep_ok] at he ⊢
      cases hv3 : vcdObj.getOrgUrl cfg.orgName with
      | error e3 =>
        simp only [hv3, callStep_err, List.nil_append, List.cons_append, List.append_assoc, List.map_cons, List.map_nil, Call.tag]
        decide
      | ok orgUrl =>
        simp only [hv3, callStep_ok] at he ⊢
        cases hv4 : vcdObj.getProviderVDCId cfg.sourcePVDCName with
        | error e4 =>
          simp only [hv4, callStep_err, List.nil_append, List.cons_append, List.append_assoc, List.map_cons, List.map_nil, Call.tag]
          decide
        | ok srcPvdc =>
          simp only [hv4, callStep_ok] at he ⊢
          cases hv5 : vcdObj.getOrgVDCDetails orgUrl cfg.sourceOrgVDCName with
          | error e5 =>
            simp only [hv5, callStep_err, List.nil_append, List.cons_append, List.append_assoc, List.map_cons, List.map_nil, Call.tag]
            decide
          | ok srcId =>
            simp only [hv5, callStep_ok] at he ⊢
            cases hv6 : vcdObj.validateOrgVDCNSXbacking srcId srcPvdc.1 srcPvdc.2 with
            | error e6 =>
              simp only [hv6, callStep_err, List.nil_append, List.cons_append, List.append_assoc, List.map_cons, List.map_nil, Call.tag]
              decide
            | ok a6 =>
              simp only [hv6, callStep_ok] at he ⊢
              cases hv7 : vcdObj.getOrgVDCEdgeGateway srcId with
              | error e7 =>
                simp only [hv7, callStep_err, List.nil_append, List.cons_append, List.append_assoc, List.map_cons, List.map_nil, Call.tag]
                decide
              | ok egw =>
                simp only [hv7, callStep_ok] at he ⊢
                cases hv8 : vcdObj.getProviderVDCId cfg.targetPVDCName with
                | error e8 =>
                  simp only [hv8, callStep_err, List.nil_append, List.cons_append, List.append_assoc, List.map_cons, List.map_nil, Call.tag]
                  decide
                | ok tgtPvdc =>
                  simp only [hv8, callStep_ok] at he ⊢
                  cases hv9 : vcdObj.getOrgVDCDetails orgUrl (cfg.sourceOrgVDCName ++ "-t") with
                  | error e9 =>
                    simp only [hv9, callStep_err, List.nil_append, List.cons_append, List.append_assoc, List.map_cons, List.map_nil, Call.tag]
                    decide
                  | ok tgtId =>
                    simp only [hv9, callStep_ok] at he ⊢
                    cases hv10 : vcdObj.validateOrgVDCNSXbacking tgtId tgtPvdc.1 tgtPvdc.2 with
                    | error e10 =>
                      simp only [hv10, callStep_err, List.nil_append, List.cons_append, List.append_assoc, List.map_cons, List.map_nil, Call.tag]
                      decide
                    | ok a10 =>
                      simp only [hv10, callStep_ok] at he ⊢
                      cases hv11 : vcdObj.validateTargetOrgVDCState tgtId with
                      | error e11 =>
                        simp only [hv11, callStep_err, List.nil_append, List.cons_append, List.append_assoc, List.map_cons, List.map_nil, Call.tag]
                        decide
                      | ok a11 =>
                        simp only [hv11, callStep_ok] at he ⊢
                        cases hv12 : vcdObj.getOrgVDCNetworks tgtId with
                        | error e12 =>
                          simp only [hv12, callStep_err, List.nil_append, List.cons_append, List.append_assoc, List.map_cons, List.map_nil, Call.tag]
                          decide
                        | ok nets =>
                          simp only [hv12, callStep_ok] at he ⊢
                          cases hv13 : vcdObj.validateVappVMsMediaState tgtId with
                          | error e13 =>
                            simp only [hv13, callStep_err, List.nil_append, List.cons_append, List.append_assoc, List.map_cons, List.map_nil, Call.tag]
                            decide
                          | ok a13 =>
                            simp only [hv13, callStep_ok] at he ⊢
                            cases hv14 : vcdObj.migrateCatalogItems srcId tgtId orgUrl with
                            | error e14 =>
                              simp only [hv14, callStep_err, List.nil_append, List.cons_append, List.append_assoc, List.map_cons, List.map_nil, Call.tag]
                              decide
                            | ok a14 =>
                              simp only [hv14, callStep_ok] at he ⊢
                              cases hv15 : nsxtObj.clearBridging nets with
                              | error e15 =>
                                simp only [hv15, callStep_err, List.nil_append, List.cons_append, List.append_assoc, List.map_cons, List.map_nil, Call.tag]
                                decide
                              | ok a15 =>
                                simp only [hv15, callStep_ok] at he ⊢
                                cases hv16 : vcdObj.deleteOrgVDCNetworks srcId with
                                | error e16 =>
                                  simp only [hv16, callStep_err, List.nil_append, List.cons_append, List.append_assoc, List.map_cons, List.map_nil, Call.tag]
                                  decide
                                | ok a16 =>
                                  simp only [hv16, callStep_ok] at he ⊢
                                  cases hv17 : vcdObj.deleteNsxVBackedOrgVDCEdgeGateways srcId with
                                  | error e17 =>
                                    simp only [hv17, callStep_err, List.nil_append, List.cons_append, List.append_assoc, List.map_cons, List.map_nil, Call.tag]
                                    decide
                                  | ok a17 =>
                                    simp only [hv17, callStep_ok] at he ⊢
                                    cases hv18 : vcdObj.deleteOrgVDC srcId with
                                    | error e18 =>
                                      simp only [hv18, callStep_err, List.nil_append, List.cons_append, List.append_assoc, List.map_cons, List.map_nil, Call.tag]
                                      decide
                                    | ok a18 =>
                                      simp only [hv18, callStep_ok] at he ⊢
                                      cases hv19 : vcdObj.renameTargetOrgVDCNetworks tgtId with
                                      | error e19 =>
                                        simp only [hv19, callStep_err, List.nil_append, List.cons_append, List.append_assoc, List.map_cons, List.map_nil, Call.tag]
                                        decide
                                      | ok a19 =>
                                        simp only [hv19, callStep_ok] at he ⊢
                                        cases hv20 : vcdObj.renameOrgVDC cfg.sourceOrgVDCName tgtId with
                                        | error e20 =>
                                          simp only [hv20, callStep_err, List.nil_append, List.cons_append, List.append_assoc, List.map_cons, List.map_nil, Call.tag]
                                          decide
                                        | ok a20 =>
                                          simp only [hv20, callStep_ok] at he ⊢
                                          cases hip : computeIpPoolUpdate cfg.sourceExternalNetworkName egw with
                                          | error e21 =>
                                            simp only [hip, callStep_err, List.nil_append, List.cons_append, List.append_assoc, List.map_cons, List.map_nil, Call.tag]
                                            decide
                                          | ok o =>
                                            simp only [hip] at he ⊢
                                            cases o with
                                            | none =>
                                              cases hds : vcdObj.deleteSession with
                                              | error e22 =>
                                                simp only [hds, callStep_err, List.nil_append, List.cons_append, List.append_assoc, List.map_cons, List.map_nil, Call.tag]
                                                decide
                                              | ok a22 =>
                                                simp only [hds, callStep_ok] at he ⊢
                                                simp at he
                                            | some rs =>
                                              cases hu : vcdObj.updateSourceExternalNetwork cfg.sourceExternalNetworkName rs with
                                              | error e23 =>
                                                simp only [hu, callStep_err, List.nil_append, List.cons_append, List.append_assoc, List.map_cons, List.map_nil, Call.tag]
                                                decide
                                              | ok a21 =>
                                                simp only [hu, callStep_ok] at he ⊢
                                                cases hds : vcdObj.deleteSession with
                                                | error e24 =>
                                                  simp only [hds, callStep_err, List.nil_append, List.cons_append, List.append_assoc, List.map_cons, List.map_nil, Call.tag]
                                                  decide
                                                | ok a22 =>
                                                  simp only [hds, callStep_ok] at he ⊢
                                                  simp at he

/-- Witness for C7 at a concrete failing run (logout failure): the
handler is the identity and the trace is an initial segment of the
straight-line call order. -/
theorem C7_witness :
    run cfg0 vcdC6 nsxtOk = runBody cfg0 vcdC6 nsxtOk ∧
    ((tagsOf cfg0 vcdC6 nsxtOk).isPrefixOf fullCallOrder = true ∨
     (tagsOf cfg0 vcdC6 nsxtOk).isPrefixOf fullCallOrderWithUpdate = true) :=
  ⟨(C7_fail_fast_no_rollback cfg0 vcdC6 nsxtOk).1,
   (C7_fail_fast_no_rollback cfg0 vcdC6 nsxtOk).2
     (.operationError "logout failed") rfl⟩
